import Mathlib

/-!
Shallow embedding of the eon-geo-api core (TypeScript) in Lean 4.

Covered source modules:
* `src/services/cache.service.ts`  (Redis-backed cache with logical TTL envelope)
* `src/services/auth.service.ts`   (API-key lifecycle, quota check, usage recording)
* `src/middleware/auth.middleware.ts` and `src/middleware/apiKeyRateLimit.middleware.ts`
  composed as the protected-route pipeline of `src/routes/index.ts`
* `src/utils/cep.util.ts`          (CEP normalization / validation)
* `src/utils/response.util.ts`     (retryWithBackoff)
* `src/services/geocoding.service.ts` (ViaCEP lookup, OpenCage / fallback coordinates)
* `src/utils/distance.util.ts`     (haversine distance, real-number idealization)

Conventions: wall-clock instants are milliseconds since the Unix epoch (`Int`);
TTLs are seconds (`Nat`); JS numbers on discrete paths are `Nat`/`Int`/`Rat`;
the trigonometric distance function is modelled over `Real`.  Redis and the
external HTTP providers are environments passed explicitly: a store is a
function from keys to optional envelope entries, and provider behaviour is a
function from the attempt index to that attempt's outcome.

The ISO date component `now.toISOString().split('T')[0]` used inside usage keys
is represented by the UTC day number `now / 86400000` (floor division): the two
induce the same partition of instants into UTC calendar days, which is the only
property the code relies on.
-/

namespace EonGeo

/-! ## Data model (`src/types/auth.types.ts`) -/

inductive ApiKeyPlan
  | free | basic | premium | enterprise
deriving DecidableEq, Repr

inductive ApiKeyStatus
  | active | inactive | suspended | revoked
deriving DecidableEq, Repr

inductive ApiPermission
  | geocodingRead | distanceRead | adminRead | adminWrite
deriving DecidableEq, Repr

structure RateLimit where
  requestsPerMinute : Nat
  requestsPerHour : Nat
  requestsPerDay : Nat
  requestsPerMonth : Nat
deriving DecidableEq, Repr

structure Usage where
  totalRequests : Nat
  requestsToday : Nat
  requestsThisMonth : Nat
  lastResetDate : Int
deriving DecidableEq, Repr

structure ApiKey where
  id : String
  key : String
  name : String
  plan : ApiKeyPlan
  status : ApiKeyStatus
  permissions : List ApiPermission
  rateLimit : RateLimit
  usage : Usage
  createdAt : Int
  updatedAt : Int
  expiresAt : Option Int
  lastUsedAt : Option Int
deriving DecidableEq, Repr

structure CreateApiKeyRequest where
  name : String
  plan : ApiKeyPlan
  permissions : List ApiPermission
  expiresInDays : Option Nat
deriving DecidableEq, Repr

structure CreateApiKeyResponse where
  id : String
  key : String
  name : String
  plan : ApiKeyPlan
  permissions : List ApiPermission
  rateLimit : RateLimit
  createdAt : Int
  expiresAt : Option Int
deriving DecidableEq, Repr

/-! ## Cache service (`src/services/cache.service.ts`)

`CacheEntry` is the stored envelope: the value, the wall-clock write time
(`Date.now()` in milliseconds) and the TTL in seconds.  A `Store` maps Redis
keys to envelopes.  `CacheEnv` carries the connection flag `isConnected`, a
flag modelling the underlying Redis command throwing, and the configured
default TTL `config.redis.ttl` (86400 unless overridden by `REDIS_TTL`). -/

structure CacheEntry (α : Type) where
  data : α
  timestamp : Int
  ttl : Nat
deriving DecidableEq, Repr

def Store (α : Type) : Type := String → Option (CacheEntry α)

def Store.update (s : Store α) (key : String) (e : CacheEntry α) : Store α :=
  fun k => if k = key then some e else s k

def Store.erase (s : Store α) (key : String) : Store α :=
  fun k => if k = key then none else s k

def Store.empty : Store α := fun _ => none

structure CacheEnv where
  isConnected : Bool
  commandFails : Bool
  defaultTtl : Nat
deriving DecidableEq, Repr

/-- JS `ttlSeconds || config.redis.ttl`: `undefined` and `0` are falsy. -/
def ttlOrDefault (ttlSeconds : Option Nat) (dflt : Nat) : Nat :=
  match ttlSeconds with
  | none => dflt
  | some 0 => dflt
  | some (n + 1) => n + 1

/-- `CacheService.get`: returns `none` when disconnected, when the Redis
command throws, when the key is absent, and when the logical TTL of the
envelope has elapsed (`Date.now() > timestamp + ttl * 1000`), deleting the
entry in the last case.  Also returns the store as left after the call. -/
def cacheGet (env : CacheEnv) (nowMs : Int) (store : Store α) (key : String) :
    Option α × Store α :=
  if env.isConnected = false then (none, store)
  else if env.commandFails then (none, store)
  else
    match store key with
    | none => (none, store)
    | some e =>
        if nowMs > e.timestamp + (e.ttl : Int) * 1000 then
          (none, store.erase key)
        else
          (some e.data, store)

/-- `CacheService.set`: no-op when disconnected or when the Redis command
throws; otherwise `setEx(key, ttl, {data, timestamp: Date.now(), ttl})` with
`ttl = ttlSeconds || config.redis.ttl`. -/
def cacheSet (env : CacheEnv) (nowMs : Int) (store : Store α) (key : String)
    (value : α) (ttlSeconds : Option Nat) : Store α :=
  if env.isConnected = false then store
  else if env.commandFails then store
  else
    let ttl := ttlOrDefault ttlSeconds env.defaultTtl
    store.update key ⟨value, nowMs, ttl⟩

/-! ## Auth service (`src/services/auth.service.ts`) -/

/-- `RATE_LIMIT_PLANS` from `src/types/auth.types.ts`. -/
def RATE_LIMIT_PLANS : ApiKeyPlan → RateLimit
  | .free => ⟨10, 100, 1000, 10000⟩
  | .basic => ⟨60, 1000, 10000, 100000⟩
  | .premium => ⟨300, 5000, 50000, 1000000⟩
  | .enterprise => ⟨1000, 20000, 200000, 5000000⟩

/-- `DEFAULT_PERMISSIONS` from `src/types/auth.types.ts`. -/
def DEFAULT_PERMISSIONS : ApiKeyPlan → List ApiPermission
  | .free => [.geocodingRead]
  | .basic => [.geocodingRead, .distanceRead]
  | .premium => [.geocodingRead, .distanceRead]
  | .enterprise => [.geocodingRead, .distanceRead, .adminRead]

/-- Cache key for an API key record: `` `apikey:` + secret ``. -/
def apiKeyCacheKey (key : String) : String := "apikey:" ++ key

/-- UTC calendar day of an instant (stands for the ISO date string
`toISOString().split('T')[0]`, see the header comment). -/
def utcDay (nowMs : Int) : Int := nowMs / 86400000

/-- Usage-record key `` `usage:` + id + `:` + isoDate ``. -/
def usageCacheKey (id : String) (nowMs : Int) : String :=
  "usage:" ++ id ++ ":" ++ toString (utcDay nowMs)

/-- AuthState bundles the two store namespaces the auth service touches.
In Redis they share one keyspace; the `apikey:`/`usage:` prefixes keep them
disjoint, which the split into two typed stores makes structural. -/
structure AuthState where
  apiKeys : Store ApiKey
  usages : Store Usage

/-- The stored record built by `AuthService.createApiKey`.  The random secret
and UUID are parameters (`generateApiKey()` / `crypto.randomUUID()`).
JS `request.expiresInDays ? now + days*86400000 : undefined` treats `0` as
falsy. -/
def createApiKeyRecord (request : CreateApiKeyRequest) (id key : String)
    (nowMs : Int) : ApiKey :=
  { id := id
    key := key
    name := request.name
    plan := request.plan
    status := .active
    permissions :=
      if request.permissions.length > 0 then request.permissions
      else DEFAULT_PERMISSIONS request.plan
    rateLimit := RATE_LIMIT_PLANS request.plan
    usage := ⟨0, 0, 0, nowMs⟩
    createdAt := nowMs
    updatedAt := nowMs
    expiresAt :=
      match request.expiresInDays with
      | none => none
      | some 0 => none
      | some (d + 1) => some (nowMs + ((d : Int) + 1) * 86400000)
    lastUsedAt := none }

/-- `AuthService.createApiKey`: builds the record and stores it with
`cacheService.set(cacheKey, apiKey, 0)` — the literal `0` annotated
`// No expiration` in the source. -/
def createApiKey (env : CacheEnv) (request : CreateApiKeyRequest)
    (id key : String) (nowMs : Int) (st : AuthState) :
    CreateApiKeyResponse × AuthState :=
  let apiKey := createApiKeyRecord request id key nowMs
  let st' := { st with
    apiKeys := cacheSet env nowMs st.apiKeys (apiKeyCacheKey key) apiKey (some 0) }
  (⟨apiKey.id, apiKey.key, apiKey.name, apiKey.plan, apiKey.permissions,
    apiKey.rateLimit, apiKey.createdAt, apiKey.expiresAt⟩, st')

/-- `AuthService.revokeApiKey`. -/
def revokeApiKey (env : CacheEnv) (key : String) (nowMs : Int) (st : AuthState) :
    Bool × AuthState :=
  let (got, s1) := cacheGet env nowMs st.apiKeys (apiKeyCacheKey key)
  match got with
  | none => (false, { st with apiKeys := s1 })
  | some apiKey =>
      let apiKey' := { apiKey with status := .revoked, updatedAt := nowMs }
      (true, { st with
        apiKeys := cacheSet env nowMs s1 (apiKeyCacheKey key) apiKey' (some 0) })

/-- The comparison `new Date() > apiKey.expiresAt` as the program actually
executes it.  The record reaching `validateApiKey` comes from
`CacheService.get`, which is `JSON.parse` with no reviver, so `expiresAt`
is the ISO-8601 string that `Date.toJSON` produced at write time.  The
ECMA-262 relational comparison coerces the Date to a number and the string
through `ToNumber`, which yields `NaN` for an ISO date string, and every
comparison against `NaN` is false — whatever the two instants are. -/
def jsDateGtIsoString (_nowMs _expiresAtMs : Int) : Bool := false

/-- `AuthService.validateApiKey`.  The secret must carry the fixed tag
`eon_` (`API_KEY_PREFIX`) before any store access; absent and non-active
records are invalid.  The source then guards an expiry branch
(`new Date() > apiKey.expiresAt`, meant to reject and lazily revoke expired
keys), but the comparison runs against the JSON-revived ISO string and is
always false (`jsDateGtIsoString`), so that branch is dead and the success
path is taken: `lastUsedAt` is set and the record persisted before it is
returned. -/
def validateApiKey (env : CacheEnv) (key : String) (nowMs : Int)
    (st : AuthState) : Option ApiKey × AuthState :=
  if key = "" ∨ "eon_".data.isPrefixOf key.data = false then (none, st)
  else
    let (got, s1) := cacheGet env nowMs st.apiKeys (apiKeyCacheKey key)
    match got with
    | none => (none, { st with apiKeys := s1 })
    | some apiKey =>
        if apiKey.status ≠ .active then (none, { st with apiKeys := s1 })
        else
          match apiKey.expiresAt with
          | some expMs =>
              if jsDateGtIsoString nowMs expMs = true then
                (none, (revokeApiKey env key nowMs { st with apiKeys := s1 }).2)
              else
                let apiKey' := { apiKey with lastUsedAt := some nowMs }
                (some apiKey', { st with
                  apiKeys := cacheSet env nowMs s1 (apiKeyCacheKey key) apiKey' (some 0) })
          | none =>
              let apiKey' := { apiKey with lastUsedAt := some nowMs }
              (some apiKey', { st with
                apiKeys := cacheSet env nowMs s1 (apiKeyCacheKey key) apiKey' (some 0) })

structure RateLimitResult where
  allowed : Bool
  remaining : Nat
  resetTime : Int
deriving DecidableEq, Repr

/-- The instant produced by `resetTime.setHours(24, 0, 0, 0)`: the next
midnight of the **local** wall clock, for a server whose clock runs
`tzOffsetMs` milliseconds ahead of UTC (0 for a UTC server). -/
def nextLocalMidnight (nowMs tzOffsetMs : Int) : Int :=
  (Int.fdiv (nowMs + tzOffsetMs) 86400000 + 1) * 86400000 - tzOffsetMs

/-- Modelled from the spec: "resetTime is always midnight UTC of the current
day when denied" / "the next UTC midnight".  Stated from the spec's words for
comparison with the source's `setHours(24,0,0,0)`. -/
def specNextUtcMidnight (nowMs : Int) : Int :=
  (Int.fdiv nowMs 86400000 + 1) * 86400000

/-- `AuthService.checkRateLimit`.  `unexpectedThrow` models an exception
escaping inside the `try` block (the catch returns the fail-open constant
result `allowed, remaining 1000, resetTime new Date()`). -/
def checkRateLimit (env : CacheEnv) (apiKey : ApiKey) (nowMs tzOffsetMs : Int)
    (unexpectedThrow : Bool) (st : AuthState) : RateLimitResult × AuthState :=
  if unexpectedThrow then (⟨true, 1000, nowMs⟩, st)
  else
    let (got, usages') := cacheGet env nowMs st.usages (usageCacheKey apiKey.id nowMs)
    let usage := got.getD ⟨0, 0, 0, nowMs⟩
    if usage.requestsToday ≥ apiKey.rateLimit.requestsPerDay then
      (⟨false, 0, nextLocalMidnight nowMs tzOffsetMs⟩, { st with usages := usages' })
    else
      (⟨true, apiKey.rateLimit.requestsPerDay - usage.requestsToday,
        nowMs + 24 * 60 * 60 * 1000⟩, { st with usages := usages' })

/-- `AuthService.recordUsage`: increments the three counters (absent record
treated as zero), writes the usage record with a 24h TTL, then mirrors the
updated usage onto the stored ApiKey (written with the literal `0` TTL). -/
def recordUsage (env : CacheEnv) (apiKey : ApiKey) (nowMs : Int)
    (st : AuthState) : AuthState :=
  let (got, usages1) := cacheGet env nowMs st.usages (usageCacheKey apiKey.id nowMs)
  let u0 := got.getD ⟨0, 0, 0, nowMs⟩
  let u : Usage := ⟨u0.totalRequests + 1, u0.requestsToday + 1,
    u0.requestsThisMonth + 1, u0.lastResetDate⟩
  let usages2 := cacheSet env nowMs usages1 (usageCacheKey apiKey.id nowMs) u
    (some (24 * 60 * 60))
  let apiKey' := { apiKey with usage := u }
  let apiKeys2 := cacheSet env nowMs st.apiKeys (apiKeyCacheKey apiKey.key)
    apiKey' (some 0)
  ⟨apiKeys2, usages2⟩

/-- `AuthService.hasPermission`: pure membership test. -/
def hasPermission (apiKey : ApiKey) (permission : ApiPermission) : Bool :=
  apiKey.permissions.contains permission

/-! ## Protected-route pipeline (`src/routes/index.ts`)

The protected routes chain
`authenticate → requirePermission(p) → checkApiKeyRateLimit →
recordApiKeyUsage → handler`.  `authenticate` validates the key, checks the
rate limit, and calls `recordUsage` before `next()`; `checkApiKeyRateLimit`
re-checks the limit; `recordApiKeyUsage` installs a `finish` listener that
calls `recordUsage` again whenever the final status is `< 500`.  The model
returns the final HTTP status together with the resulting state. -/

/-- `AuthMiddleware.authenticate`: validate the key (401 on failure), check
the rate limit (429 on denial), then record usage and pass the validated key
on to the rest of the chain. -/
def authenticate (env : CacheEnv) (secret : String) (nowMs tzOffsetMs : Int)
    (st : AuthState) : Except (Nat × AuthState) (ApiKey × AuthState) :=
  match validateApiKey env secret nowMs st with
  | (none, st1) => .error (401, st1)
  | (some apiKey, st1) =>
      let (rl, st2) := checkRateLimit env apiKey nowMs tzOffsetMs false st1
      if rl.allowed = false then .error (429, st2)
      else .ok (apiKey, recordUsage env apiKey nowMs st2)

/-- `ApiKeyRateLimit.checkApiKeyRateLimit`: the second quota check on the
protected routes (429 on denial, otherwise pass-through). -/
def checkApiKeyRateLimit (env : CacheEnv) (apiKey : ApiKey)
    (nowMs tzOffsetMs : Int) (st : AuthState) :
    Except (Nat × AuthState) AuthState :=
  let (rl, st4) := checkRateLimit env apiKey nowMs tzOffsetMs false st
  if rl.allowed = false then .error (429, st4) else .ok st4

/-- `ApiKeyRateLimit.recordApiKeyUsage`'s finish listener: record usage once
more when the response completed with a status below 500. -/
def recordApiKeyUsageOnFinish (env : CacheEnv) (apiKey : ApiKey) (nowMs : Int)
    (status : Nat) (st : AuthState) : AuthState :=
  if status < 500 then recordUsage env apiKey nowMs st else st

def protectedRequest (env : CacheEnv) (secret : String) (permission : ApiPermission)
    (handlerStatus : Nat) (nowMs tzOffsetMs : Int) (st : AuthState) :
    Nat × AuthState :=
  match authenticate env secret nowMs tzOffsetMs st with
  | .error r => r
  | .ok (apiKey, st3) =>
      if hasPermission apiKey permission = false then (403, st3)
      else
        match checkApiKeyRateLimit env apiKey nowMs tzOffsetMs st3 with
        | .error r => r
        | .ok st4 =>
            (handlerStatus,
              recordApiKeyUsageOnFinish env apiKey nowMs handlerStatus st4)

/-- The day's usage counter visible in a state (absent record read as zero). -/
def requestsTodayIn (st : AuthState) (id : String) (nowMs : Int) : Nat :=
  match st.usages (usageCacheKey id nowMs) with
  | none => 0
  | some e => e.data.requestsToday

/-! ## CEP utilities (`src/utils/cep.util.ts`) -/

/-- `cep.replace(/\D/g, '')`: strip every non-digit character. -/
def stripNonDigits (s : String) : String := ⟨s.data.filter Char.isDigit⟩

/-- `formatCep`: empty string for falsy input, otherwise the digits. -/
def formatCep (cep : String) : String :=
  if cep = "" then "" else stripNonDigits cep

/-- The regex `^(\d)\1{7}$`: one digit followed by seven backreferences. -/
def isRepeatedDigit (s : String) : Bool :=
  match s.data with
  | [] => false
  | c :: rest => c.isDigit && rest.length == 7 && rest.all (fun d => d == c)

/-- `isValidCep`: falsy input invalid; then exactly 8 digits after stripping,
and not a single repeated digit. -/
def isValidCep (cep : String) : Bool :=
  if cep = "" then false
  else
    let cleanCep := stripNonDigits cep
    if cleanCep.length ≠ 8 then false
    else if isRepeatedDigit cleanCep then false
    else true

/-! ## Retry with backoff (`src/utils/response.util.ts`)

An external HTTP call either resolves or rejects; a rejection is an Axios
error: an HTTP error status, or a transport error with no response.  The
behaviour of the provider is a function from the attempt index to that
attempt's outcome. -/

inductive CallFailure
  | httpErr (status : Nat)
  | netErr
deriving DecidableEq, Repr

/-- Inner loop of `retryWithBackoff`, counting down the remaining retries.
Returns the final outcome, the number of attempts performed, and the list of
backoff delays (`baseDelay * 2 ^ attempt`) that were awaited. -/
def retryFrom (op : Nat → Except CallFailure α) (baseDelay : Nat) :
    Nat → Nat → Except CallFailure α × Nat × List Nat
  | attempt, 0 => (op attempt, attempt + 1, [])
  | attempt, remaining + 1 =>
      match op attempt with
      | .ok v => (.ok v, attempt + 1, [])
      | .error _ =>
          let r := retryFrom op baseDelay (attempt + 1) remaining
          (r.1, r.2.1, baseDelay * 2 ^ attempt :: r.2.2)

/-- `retryWithBackoff(operation, maxRetries = 3, baseDelay = 1000)`. -/
def retryWithBackoff (op : Nat → Except CallFailure α) (maxRetries baseDelay : Nat) :
    Except CallFailure α × Nat × List Nat :=
  retryFrom op baseDelay 0 maxRetries

/-! ## Geocoding service (`src/services/geocoding.service.ts`) -/

structure Address where
  cep : String
  logradouro : String
  complemento : String
  bairro : String
  localidade : String
  uf : String
  ibge : String
  gia : String
  ddd : String
  siafi : String
deriving DecidableEq, Repr

/-- A resolved ViaCEP response body: the address fields plus the optional
`erro` flag (`true` on the provider's well-formed "not found" answer). -/
structure ViaCepResponse where
  body : Address
  erro : Bool
deriving DecidableEq, Repr

/-- The failures `geocodeCep` can surface: the two `validateCepOrThrow`
errors (before any I/O) and the `ErrorCodes` produced by
`getAddressFromViaCep`. -/
inductive GeoFailure
  | cepRequired
  | cepFormatInvalid
  | cepNotFound
  | serviceUnavailable
deriving DecidableEq, Repr

/-- Whether a `GeoFailure` is one of the malformed-input errors raised by
`validateCepOrThrow` (the spec's `InvalidInput` kind). -/
def GeoFailure.isInvalidInput : GeoFailure → Bool
  | .cepRequired => true
  | .cepFormatInvalid => true
  | .cepNotFound => false
  | .serviceUnavailable => false

/-- `GeocodingService.getAddressFromViaCep`: wraps the ViaCEP call in
`retryWithBackoff(op, 3, 1000)`; a resolved body with `erro` is terminal
`CEP_NOT_FOUND`; a rejection with HTTP status 404 maps to `CEP_NOT_FOUND`,
any other rejection to `SERVICE_UNAVAILABLE`.  Also returns the number of
attempts performed and the backoff delays awaited. -/
def getAddressFromViaCep (op : Nat → Except CallFailure ViaCepResponse) :
    Except GeoFailure Address × Nat × List Nat :=
  let (res, attempts, delays) := retryWithBackoff op 3 1000
  match res with
  | .ok data =>
      if data.erro then (.error .cepNotFound, attempts, delays)
      else (.ok data.body, attempts, delays)
  | .error (.httpErr status) =>
      if status = 404 then (.error .cepNotFound, attempts, delays)
      else (.error .serviceUnavailable, attempts, delays)
  | .error .netErr => (.error .serviceUnavailable, attempts, delays)

/-- Coordinates on the discrete paths: JS numbers as exact rationals. -/
structure Coordinates where
  latitude : Rat
  longitude : Rat
deriving DecidableEq, Repr

/-- `Number(x.toFixed(6))`: round to 6 decimal places. -/
def round6 (x : Rat) : Rat := (round (x * 1000000) : Int) / 1000000

/-- The `stateCoordinates` table: the 27 first-level regions mapped to their
capital's coordinates. -/
def stateCoordinates : String → Option Coordinates
  | "AC" => some ⟨-90238/10000, -708120/10000⟩
  | "AL" => some ⟨-95713/10000, -367819/10000⟩
  | "AP" => some ⟨389/10000, -510964/10000⟩
  | "AM" => some ⟨-31190/10000, -600217/10000⟩
  | "BA" => some ⟨-129704/10000, -385124/10000⟩
  | "CE" => some ⟨-37304/10000, -385267/10000⟩
  | "DF" => some ⟨-158267/10000, -479218/10000⟩
  | "ES" => some ⟨-203155/10000, -403128/10000⟩
  | "GO" => some ⟨-166869/10000, -492648/10000⟩
  | "MA" => some ⟨-25387/10000, -442825/10000⟩
  | "MT" => some ⟨-156014/10000, -560979/10000⟩
  | "MS" => some ⟨-204697/10000, -546201/10000⟩
  | "MG" => some ⟨-198157/10000, -439542/10000⟩
  | "PA" => some ⟨-14554/10000, -484898/10000⟩
  | "PB" => some ⟨-71195/10000, -348450/10000⟩
  | "PR" => some ⟨-254284/10000, -492733/10000⟩
  | "PE" => some ⟨-80476/10000, -348770/10000⟩
  | "PI" => some ⟨-50892/10000, -428019/10000⟩
  | "RJ" => some ⟨-229068/10000, -431729/10000⟩
  | "RN" => some ⟨-57945/10000, -352110/10000⟩
  | "RS" => some ⟨-300346/10000, -512177/10000⟩
  | "RO" => some ⟨-87619/10000, -639039/10000⟩
  | "RR" => some ⟨28235/10000, -606758/10000⟩
  | "SC" => some ⟨-275954/10000, -485480/10000⟩
  | "SP" => some ⟨-235505/10000, -466333/10000⟩
  | "SE" => some ⟨-109472/10000, -370731/10000⟩
  | "TO" => some ⟨-101753/10000, -482982/10000⟩
  | _ => none

/-- `GeocodingService.estimateCoordinatesFromBrazilianAddress`: the capital's
coordinates jittered by `(Math.random() - 0.5) * 0.1` on each axis and
rounded with `toFixed(6)`; the fixed country centroid when the region code is
unknown.  The two `Math.random()` draws are the parameters `r1 r2 ∈ [0,1)`. -/
def estimateCoordinatesFromBrazilianAddress (r1 r2 : Rat) (address : Address) :
    Coordinates :=
  match stateCoordinates address.uf with
  | some stateCoords =>
      let latVariation := (r1 - 1/2) * (1/10)
      let lngVariation := (r2 - 1/2) * (1/10)
      ⟨round6 (stateCoords.latitude + latVariation),
       round6 (stateCoords.longitude + lngVariation)⟩
  | none => ⟨-142350/10000, -519253/10000⟩

/-- `GeocodingService.getCoordinatesFromOpenCage`: the call either rejects or
resolves with the ranked result list; an empty list throws
(`No results found from OpenCage`); otherwise the first result's raw
`geometry.lat`/`geometry.lng` are returned. -/
def getCoordinatesFromOpenCage (outcome : Except CallFailure (List Coordinates)) :
    Except Unit Coordinates :=
  match outcome with
  | .error _ => .error ()
  | .ok [] => .error ()
  | .ok (first :: _) => .ok ⟨first.latitude, first.longitude⟩

/-- `GeocodingService.getCoordinatesFromAddress` — the coordinate resolver:
try OpenCage when an API key is configured, fall back to the Brazilian
estimator on any failure. -/
def getCoordinatesFromAddress (openCageConfigured : Bool)
    (openCageOutcome : Except CallFailure (List Coordinates)) (r1 r2 : Rat)
    (address : Address) : Coordinates :=
  if openCageConfigured then
    match getCoordinatesFromOpenCage openCageOutcome with
    | .ok coords => coords
    | .error _ => estimateCoordinatesFromBrazilianAddress r1 r2 address
  else
    estimateCoordinatesFromBrazilianAddress r1 r2 address

structure GeocodingResult where
  coordinates : Coordinates
  address : Address
deriving DecidableEq, Repr

/-- External I/O effects performed by `geocodeCep`, in order. -/
inductive GeoEffect
  | storeGet (key : String)
  | storeSet (key : String)
  | viaCepLookup (cep : String)
  | openCageLookup
deriving DecidableEq, Repr

structure GeocodeOutcome where
  result : Except GeoFailure GeocodingResult
  store : Store GeocodingResult
  trace : List GeoEffect

/-- `GeocodingService.geocodeCep`: `validateCepOrThrow` (throwing
`CEP is required` on the empty string, the format error otherwise) strictly
before any I/O; then cache-aside on `` `geocoding:` + cleanCep `` with the
default TTL, ViaCEP, and the coordinate resolver.  The trace records the
external operations in order. -/
def geocodeCep (env : CacheEnv) (nowMs : Int) (geoStore : Store GeocodingResult)
    (viaCepOp : Nat → Except CallFailure ViaCepResponse)
    (openCageConfigured : Bool)
    (openCageOutcome : Except CallFailure (List Coordinates)) (r1 r2 : Rat)
    (cep : String) : GeocodeOutcome :=
  if cep = "" then ⟨.error .cepRequired, geoStore, []⟩
  else if isValidCep cep = false then ⟨.error .cepFormatInvalid, geoStore, []⟩
  else
    let cleanCep := formatCep cep
    let cacheKey := "geocoding:" ++ cleanCep
    let (cached, s1) := cacheGet env nowMs geoStore cacheKey
    match cached with
    | some result => ⟨.ok result, s1, [.storeGet cacheKey]⟩
    | none =>
        let (addressRes, _, _) := getAddressFromViaCep viaCepOp
        match addressRes with
        | .error e => ⟨.error e, s1, [.storeGet cacheKey, .viaCepLookup cleanCep]⟩
        | .ok addressData =>
            let coordinates := getCoordinatesFromAddress openCageConfigured
              openCageOutcome r1 r2 addressData
            let result : GeocodingResult := ⟨coordinates, addressData⟩
            let s2 := cacheSet env nowMs s1 cacheKey result none
            ⟨.ok result, s2,
              [.storeGet cacheKey, .viaCepLookup cleanCep] ++
                (if openCageConfigured then [.openCageLookup] else []) ++
                [.storeSet cacheKey]⟩

/-! ## Distance calculator (`src/utils/distance.util.ts`)

The haversine computation runs on IEEE doubles in the source; the model is
the standard real-number idealization.  `Math.round` is `round` (half toward
positive infinity, which matches JS exactly, negatives included). -/

structure CoordinatesR where
  latitude : Real
  longitude : Real

/-- `toRadians(degrees) = degrees * (Math.PI / 180)`. -/
noncomputable def toRadians (degrees : Real) : Real := degrees * (Real.pi / 180)

/-- `Math.atan2(y, x)` on the reals. -/
noncomputable def atan2 (y x : Real) : Real :=
  if 0 < x then Real.arctan (y / x)
  else if x < 0 ∧ 0 ≤ y then Real.arctan (y / x) + Real.pi
  else if x < 0 ∧ y < 0 then Real.arctan (y / x) - Real.pi
  else if x = 0 ∧ 0 < y then Real.pi / 2
  else if x = 0 ∧ y < 0 then -(Real.pi / 2)
  else 0

/-- `Math.round(x * 100) / 100`. -/
noncomputable def roundTo2 (x : Real) : Real := (round (x * 100) : Int) / 100

/-- `calculateDistance`: haversine great-circle distance, Earth radius
6371 km, rounded to 2 decimal places. -/
noncomputable def calculateDistance (origin destination : CoordinatesR) : Real :=
  let R : Real := 6371
  let lat1Rad := toRadians origin.latitude
  let lat2Rad := toRadians destination.latitude
  let deltaLatRad := toRadians (destination.latitude - origin.latitude)
  let deltaLngRad := toRadians (destination.longitude - origin.longitude)
  let a :=
    Real.sin (deltaLatRad / 2) * Real.sin (deltaLatRad / 2) +
      Real.cos lat1Rad * Real.cos lat2Rad *
        (Real.sin (deltaLngRad / 2) * Real.sin (deltaLngRad / 2))
  let c := 2 * atan2 (Real.sqrt a) (Real.sqrt (1 - a))
  let distance := R * c
  roundTo2 distance

/-- `areValidCoordinates`: latitude within `[-90, 90]`, longitude within
`[-180, 180]`. -/
def areValidCoordinates (c : CoordinatesR) : Prop :=
  -90 ≤ c.latitude ∧ c.latitude ≤ 90 ∧ -180 ≤ c.longitude ∧ c.longitude ≤ 180

/-! ## Concrete fixture for the protected-route pipeline

A healthy environment, a freshly created basic-plan key, and the state
sequence produced by repeatedly issuing the same successful protected
request at one instant of one UTC day. -/

def healthyEnv : CacheEnv := ⟨true, false, 86400⟩

def basicRequest : CreateApiKeyRequest := ⟨"demo", .basic, [], none⟩

def fixtureState : AuthState :=
  (createApiKey healthyEnv basicRequest "id1" "eon_k" 0 ⟨Store.empty, Store.empty⟩).2

/-- State after `n` successful protected requests against the fixture key. -/
def pipelineState : Nat → AuthState
  | 0 => fixtureState
  | n + 1 => (protectedRequest healthyEnv "eon_k" .geocodingRead 200 0 0 (pipelineState n)).2

/-- HTTP status of the `(n+1)`-th request in the fixture sequence. -/
def pipelineStatus (n : Nat) : Nat :=
  (protectedRequest healthyEnv "eon_k" .geocodingRead 200 0 0 (pipelineState n)).1

/-- Invariant threaded through the fixture sequence: the stored key record
keeps the fields the pipeline inspects, and the day's usage counter is `c`. -/
def PipelineInv (st : AuthState) (c : Nat) : Prop :=
  (∃ K : ApiKey,
      st.apiKeys (apiKeyCacheKey "eon_k") = some ⟨K, 0, 86400⟩ ∧
      K.id = "id1" ∧ K.key = "eon_k" ∧ K.status = .active ∧ K.expiresAt = none ∧
      K.permissions = [.geocodingRead, .distanceRead] ∧
      K.rateLimit = RATE_LIMIT_PLANS .basic) ∧
  ((st.usages (usageCacheKey "id1" 0) = none ∧ c = 0) ∨
    (∃ u : Usage, st.usages (usageCacheKey "id1" 0) = some ⟨u, 0, 86400⟩ ∧
      u.requestsToday = c))

/-! # Theorems -/

/-- Reading the key a store update just wrote yields the new entry. -/
theorem Store.update_self (s : Store α) (k : String) (e : CacheEntry α) :
    Store.update s k e k = some e := by
  simp [Store.update]

/-- C5: for every create request the issued key's rateLimit comes from the
plan-tier table (the request carries no rate-limit field at all), permissions
equal the tier default when the caller supplies none, and a basic-plan key
with no explicit permissions gets exactly geocoding:read + distance:read and
the basic tier limits. -/
theorem createApiKey_tier_table (env : CacheEnv) (request : CreateApiKeyRequest)
    (id key : String) (nowMs : Int) (st : AuthState) :
    (createApiKey env request id key nowMs st).1.rateLimit =
        RATE_LIMIT_PLANS request.plan ∧
    (request.permissions = [] →
      (createApiKey env request id key nowMs st).1.permissions =
        DEFAULT_PERMISSIONS request.plan) ∧
    (request.plan = .basic → request.permissions = [] →
      (createApiKey env request id key nowMs st).1.permissions =
          [.geocodingRead, .distanceRead] ∧
      (createApiKey env request id key nowMs st).1.rateLimit =
          ⟨60, 1000, 10000, 100000⟩) := by
  refine ⟨rfl, fun hp => ?_, fun hplan hp => ?_⟩
  · simp [createApiKey, createApiKeyRecord, hp]
  · simp [createApiKey, createApiKeyRecord, hp, hplan, DEFAULT_PERMISSIONS,
      RATE_LIMIT_PLANS]

/-- Witness for C5 at a concrete basic-plan request with no permissions. -/
theorem createApiKey_tier_table_witness :
    (createApiKey ⟨true, false, 86400⟩ ⟨"demo", .basic, [], none⟩ "id1" "eon_k" 0
        ⟨Store.empty, Store.empty⟩).1.permissions =
      [.geocodingRead, .distanceRead] ∧
    (createApiKey ⟨true, false, 86400⟩ ⟨"demo", .basic, [], none⟩ "id1" "eon_k" 0
        ⟨Store.empty, Store.empty⟩).1.rateLimit = ⟨60, 1000, 10000, 100000⟩ :=
  (createApiKey_tier_table ⟨true, false, 86400⟩ ⟨"demo", .basic, [], none⟩
    "id1" "eon_k" 0 ⟨Store.empty, Store.empty⟩).2.2 rfl rfl

/-- C6: when the store is down or the store command throws, cache get yields
a miss with the store untouched, cache set is a no-op, and the quota check
returns an allowed verdict with a positive remaining count (1000 from the
defensive catch, or the key's full daily allowance via the zero-valued
implicit record) — never a denial. -/
theorem store_failures_fail_open {α : Type} (env : CacheEnv) (nowMs : Int)
    (store : Store α) (key : String) (value : α) (ttlSeconds : Option Nat)
    (apiKey : ApiKey) (tzOffsetMs : Int) (unexpectedThrow : Bool) (st : AuthState)
    (hbad : env.isConnected = false ∨ env.commandFails = true)
    (hperDay : 0 < apiKey.rateLimit.requestsPerDay) :
    cacheGet env nowMs store key = (none, store) ∧
    cacheSet env nowMs store key value ttlSeconds = store ∧
    (checkRateLimit env apiKey nowMs tzOffsetMs unexpectedThrow st).1.allowed = true ∧
    ((checkRateLimit env apiKey nowMs tzOffsetMs unexpectedThrow st).1.remaining = 1000 ∨
      (checkRateLimit env apiKey nowMs tzOffsetMs unexpectedThrow st).1.remaining =
        apiKey.rateLimit.requestsPerDay) ∧
    0 < (checkRateLimit env apiKey nowMs tzOffsetMs unexpectedThrow st).1.remaining := by
  have hget : cacheGet env nowMs store key = (none, store) := by
    rcases hbad with h | h <;> simp [cacheGet, h]
  have hset : cacheSet env nowMs store key value ttlSeconds = store := by
    rcases hbad with h | h <;> simp [cacheSet, h]
  have hgetU : cacheGet env nowMs st.usages (usageCacheKey apiKey.id nowMs) =
      (none, st.usages) := by
    rcases hbad with h | h <;> simp [cacheGet, h]
  refine ⟨hget, hset, ?_⟩
  cases unexpectedThrow with
  | true => simp [checkRateLimit]
  | false =>
      simp only [checkRateLimit, hgetU, if_neg]
      simp [Option.getD, Nat.not_le.mpr hperDay, hperDay]

/-- Witness for C6: disconnected store, free-plan key, no exception flag. -/
theorem store_failures_fail_open_witness :
    cacheGet (α := Nat) ⟨false, false, 86400⟩ 0 Store.empty "k" = (none, Store.empty) ∧
    cacheSet (α := Nat) ⟨false, false, 86400⟩ 0 Store.empty "k" 7 none = Store.empty ∧
    (checkRateLimit ⟨false, false, 86400⟩
        (createApiKeyRecord ⟨"demo", .free, [], none⟩ "id1" "eon_k" 0) 0 0 false
        ⟨Store.empty, Store.empty⟩).1.allowed = true ∧
    ((checkRateLimit ⟨false, false, 86400⟩
        (createApiKeyRecord ⟨"demo", .free, [], none⟩ "id1" "eon_k" 0) 0 0 false
        ⟨Store.empty, Store.empty⟩).1.remaining = 1000 ∨
      (checkRateLimit ⟨false, false, 86400⟩
        (createApiKeyRecord ⟨"demo", .free, [], none⟩ "id1" "eon_k" 0) 0 0 false
        ⟨Store.empty, Store.empty⟩).1.remaining =
        (createApiKeyRecord ⟨"demo", .free, [], none⟩ "id1" "eon_k" 0).rateLimit.requestsPerDay) ∧
    0 < (checkRateLimit ⟨false, false, 86400⟩
        (createApiKeyRecord ⟨"demo", .free, [], none⟩ "id1" "eon_k" 0) 0 0 false
        ⟨Store.empty, Store.empty⟩).1.remaining :=
  store_failures_fail_open ⟨false, false, 86400⟩ 0 Store.empty "k" 7 none
    (createApiKeyRecord ⟨"demo", .free, [], none⟩ "id1" "eon_k" 0) 0 false
    ⟨Store.empty, Store.empty⟩ (Or.inl rfl) (by decide)

/-- C2 is a code bug: `createApiKey` writes the record with the literal TTL
argument `0` annotated `No expiration`, but `CacheService.set` computes
`ttlSeconds || config.redis.ttl`, and `0` is falsy in JS — so the ApiKey
record is stored with the default 86400-second expiry, is reported absent
and physically deleted on any read more than 24 hours after the last write,
and `validateApiKey` then fails.  This theorem evaluates the embedded code
at the failing input (key created at t = 0, read at t = 86400001 ms), and
also records the within-TTL behaviour the claim correctly describes
(revocation only transitions status, the record stays readable, validation
fails permanently). -/
theorem apiKey_record_expires_despite_no_expiration_comment :
    (ttlOrDefault (some 0) 86400 = 86400 ∧
      ((createApiKey healthyEnv basicRequest "id1" "eon_k" 0
          ⟨Store.empty, Store.empty⟩).2.apiKeys
            (apiKeyCacheKey "eon_k")).map (fun e => e.ttl) = some 86400) ∧
    (cacheGet healthyEnv 86400001 fixtureState.apiKeys (apiKeyCacheKey "eon_k")).1
        = none ∧
    (cacheGet healthyEnv 86400001 fixtureState.apiKeys (apiKeyCacheKey "eon_k")).2
        (apiKeyCacheKey "eon_k") = none ∧
    (validateApiKey healthyEnv "eon_k" 86400001 fixtureState).1 = none ∧
    ((revokeApiKey healthyEnv "eon_k" 1000 fixtureState).2.apiKeys
        (apiKeyCacheKey "eon_k")).map (fun e => e.data.status) = some .revoked ∧
    (validateApiKey healthyEnv "eon_k" 2000
        (revokeApiKey healthyEnv "eon_k" 1000 fixtureState).2).1 = none ∧
    ((cacheGet healthyEnv 2000
        (revokeApiKey healthyEnv "eon_k" 1000 fixtureState).2.apiKeys
        (apiKeyCacheKey "eon_k")).1).isSome = true := by
  refine ⟨⟨rfl, ?_⟩, ?_, ?_, ?_, ?_, ?_, ?_⟩ <;> rfl

/-- C4 is a code bug in its expiry clause: the source's expiry check
`new Date() > apiKey.expiresAt` compares a Date against the JSON-revived
ISO string, which is always false under ECMA-262 coercion, so the
expired-to-invalid-plus-revoke behaviour the claim (and the source's own
`API key has expired` branch) asserts never happens at runtime.  This
theorem evaluates the embedded code at the failing input: a basic key
created at t = 0 expiring at t = 86400000 ms, last persisted at
t = 86000000 ms (so its store envelope is still fresh), validated at
t = 100000000 ms — past its expiry.  The program returns the key as valid,
updates `lastUsedAt`, and leaves the stored record active, never revoked.
(The claim's other clauses — tag pre-check, absent record, non-active
status, success-path persistence — do hold on the code.) -/
theorem validateApiKey_expired_key_still_validates :
    jsDateGtIsoString 100000000 86400000 = false ∧
    (createApiKeyRecord ⟨"demo", .basic, [], some 1⟩ "id1" "eon_k" 0).expiresAt =
      some 86400000 ∧
    (86400000 : Int) < 100000000 ∧
    (validateApiKey healthyEnv "eon_k" 100000000
        ⟨Store.empty.update (apiKeyCacheKey "eon_k")
          ⟨createApiKeyRecord ⟨"demo", .basic, [], some 1⟩ "id1" "eon_k" 0,
            86000000, 86400⟩, Store.empty⟩).1 =
      some { createApiKeyRecord ⟨"demo", .basic, [], some 1⟩ "id1" "eon_k" 0 with
              lastUsedAt := some 100000000 } ∧
    ((validateApiKey healthyEnv "eon_k" 100000000
        ⟨Store.empty.update (apiKeyCacheKey "eon_k")
          ⟨createApiKeyRecord ⟨"demo", .basic, [], some 1⟩ "id1" "eon_k" 0,
            86000000, 86400⟩, Store.empty⟩).2.apiKeys
        (apiKeyCacheKey "eon_k")).map
          (fun e => (e.data.status, e.data.expiresAt)) =
      some (.active, some 86400000) := by
  exact ⟨rfl, rfl, by decide, rfl, rfl⟩

/-- C1 (amended): the quota check allows exactly when the day's counter
(zero for an absent record) is below `rateLimit.requestsPerDay`; a denial has
remaining 0 and resetTime at the next midnight of the server's local wall
clock (`setHours(24,0,0,0)`) — which coincides with the next UTC midnight
exactly when the server clock runs at UTC offset 0 — and an allowed check has
resetTime now + 24h and remaining the unused allowance. -/
theorem checkRateLimit_daily_quota (env : CacheEnv) (apiKey : ApiKey)
    (nowMs tzOffsetMs : Int) (st : AuthState)
    (hconn : env.isConnected = true) (hfail : env.commandFails = false) :
    (st.usages (usageCacheKey apiKey.id nowMs) = none →
      checkRateLimit env apiKey nowMs tzOffsetMs false st =
        (if 0 < apiKey.rateLimit.requestsPerDay then
            ⟨true, apiKey.rateLimit.requestsPerDay, nowMs + 24 * 60 * 60 * 1000⟩
          else ⟨false, 0, nextLocalMidnight nowMs tzOffsetMs⟩, st)) ∧
    (∀ e : CacheEntry Usage,
      st.usages (usageCacheKey apiKey.id nowMs) = some e →
      nowMs ≤ e.timestamp + (e.ttl : Int) * 1000 →
      ((checkRateLimit env apiKey nowMs tzOffsetMs false st).1.allowed = true ↔
        e.data.requestsToday < apiKey.rateLimit.requestsPerDay) ∧
      (e.data.requestsToday < apiKey.rateLimit.requestsPerDay →
        (checkRateLimit env apiKey nowMs tzOffsetMs false st).1 =
          ⟨true, apiKey.rateLimit.requestsPerDay - e.data.requestsToday,
            nowMs + 24 * 60 * 60 * 1000⟩) ∧
      (apiKey.rateLimit.requestsPerDay ≤ e.data.requestsToday →
        (checkRateLimit env apiKey nowMs tzOffsetMs false st).1 =
          ⟨false, 0, nextLocalMidnight nowMs tzOffsetMs⟩)) ∧
    nextLocalMidnight nowMs 0 = specNextUtcMidnight nowMs := by
  refine ⟨?_, ?_, by simp [nextLocalMidnight, specNextUtcMidnight]⟩
  · intro habs
    by_cases hpd : 0 < apiKey.rateLimit.requestsPerDay
    · simp [checkRateLimit, cacheGet, hconn, hfail, habs, Nat.not_le.mpr hpd,
        hpd]
    · have h0 : apiKey.rateLimit.requestsPerDay = 0 := Nat.eq_zero_of_not_pos hpd
      simp [checkRateLimit, cacheGet, hconn, hfail, habs, h0, hpd]
  · intro e hsome hfresh
    by_cases hcnt : e.data.requestsToday < apiKey.rateLimit.requestsPerDay
    · refine ⟨?_, fun _ => ?_, fun hge => absurd hcnt (Nat.not_lt.mpr hge)⟩ <;>
        simp [checkRateLimit, cacheGet, hconn, hfail, hsome,
          if_neg (not_lt.mpr hfresh), Nat.not_le.mpr hcnt, hcnt]
    · refine ⟨?_, fun hlt => absurd hlt hcnt, fun _ => ?_⟩ <;>
        simp [checkRateLimit, cacheGet, hconn, hfail, hsome,
          if_neg (not_lt.mpr hfresh), Nat.not_lt.mp hcnt, hcnt]

/-- Counterexample for C1 as stated: at t = 0 on a server running at UTC-3
(the repo's home timezone), a denied check reports resetTime 10800000 ms
(03:00 UTC, the next *local* midnight), not the next UTC midnight
86400000 ms — `setHours(24,0,0,0)` is a local-time operation. -/
theorem checkRateLimit_reset_not_utc_midnight :
    (checkRateLimit healthyEnv
        (createApiKeyRecord ⟨"demo", .free, [], none⟩ "id1" "eon_k" 0)
        0 (-10800000) false
        ⟨Store.empty, Store.empty.update (usageCacheKey "id1" 0)
          ⟨⟨1000, 1000, 1000, 0⟩, 0, 86400⟩⟩).1 = ⟨false, 0, 10800000⟩ ∧
    specNextUtcMidnight 0 = 86400000 ∧ (10800000 : Int) ≠ 86400000 := by
  refine ⟨rfl, rfl, by decide⟩

/-- Witness for C1 at a UTC server (offset 0): the free-tier fixture key is
denied at counter 1000 with reset at the next UTC midnight, and allowed at
counter 999 with reset now + 24h. -/
theorem checkRateLimit_daily_quota_witness :
    ((checkRateLimit healthyEnv
        (createApiKeyRecord ⟨"demo", .free, [], none⟩ "id1" "eon_k" 0)
        0 0 false
        ⟨Store.empty, Store.empty.update (usageCacheKey "id1" 0)
          ⟨⟨1000, 1000, 1000, 0⟩, 0, 86400⟩⟩).1 =
      ⟨false, 0, nextLocalMidnight 0 0⟩) ∧
    ((checkRateLimit healthyEnv
        (createApiKeyRecord ⟨"demo", .free, [], none⟩ "id1" "eon_k" 0)
        0 0 false
        ⟨Store.empty, Store.empty.update (usageCacheKey "id1" 0)
          ⟨⟨999, 999, 999, 0⟩, 0, 86400⟩⟩).1 =
      ⟨true, 1, 86400000⟩) ∧
    nextLocalMidnight 0 0 = specNextUtcMidnight 0 := by
  refine ⟨((checkRateLimit_daily_quota healthyEnv
      (createApiKeyRecord ⟨"demo", .free, [], none⟩ "id1" "eon_k" 0) 0 0
      ⟨Store.empty, Store.empty.update (usageCacheKey "id1" 0)
        ⟨⟨1000, 1000, 1000, 0⟩, 0, 86400⟩⟩ rfl rfl).2.1
      ⟨⟨1000, 1000, 1000, 0⟩, 0, 86400⟩ ?_ (by decide)).2.2 (by decide), ?_, ?_⟩
  · rfl
  · exact ((checkRateLimit_daily_quota healthyEnv
      (createApiKeyRecord ⟨"demo", .free, [], none⟩ "id1" "eon_k" 0) 0 0
      ⟨Store.empty, Store.empty.update (usageCacheKey "id1" 0)
        ⟨⟨999, 999, 999, 0⟩, 0, 86400⟩⟩ rfl rfl).2.1
      ⟨⟨999, 999, 999, 0⟩, 0, 86400⟩ rfl (by decide)).2.1 (by decide)
  · exact (checkRateLimit_daily_quota healthyEnv
      (createApiKeyRecord ⟨"demo", .free, [], none⟩ "id1" "eon_k" 0) 0 0
      ⟨Store.empty, Store.empty⟩ rfl rfl).2.2

/-- Retry helper: at least one attempt is performed. -/
theorem retryFrom_attempts_lower (op : Nat → Except CallFailure α) (d : Nat) :
    ∀ (r a : Nat), a + 1 ≤ (retryFrom op d a r).2.1 := by
  intro r
  induction r with
  | zero => intro a; simp [retryFrom]
  | succ r ih =>
      intro a
      cases h : op a with
      | ok v => simp [retryFrom, h]
      | error e =>
          have := ih (a + 1)
          simp only [retryFrom, h]
          omega

/-- Retry helper: at most `remaining + 1` further attempts are performed. -/
theorem retryFrom_attempts_upper (op : Nat → Except CallFailure α) (d : Nat) :
    ∀ (r a : Nat), (retryFrom op d a r).2.1 ≤ a + r + 1 := by
  intro r
  induction r with
  | zero => intro a; simp [retryFrom]
  | succ r ih =>
      intro a
      cases h : op a with
      | ok v => simp only [retryFrom, h]; omega
      | error e =>
          have := ih (a + 1)
          simp only [retryFrom, h]
          omega

/-- Retry helper: the awaited delays double from `d * 2 ^ a`. -/
theorem retryFrom_delays (op : Nat → Except CallFailure α) (d : Nat) :
    ∀ (r a : Nat), (retryFrom op d a r).2.2 =
      (List.range ((retryFrom op d a r).2.1 - 1 - a)).map
        (fun i => d * 2 ^ (a + i)) := by
  intro r
  induction r with
  | zero => intro a; simp [retryFrom]
  | succ r ih =>
      intro a
      cases h : op a with
      | ok v => simp [retryFrom, h]
      | error e =>
          have hlow := retryFrom_attempts_lower op d r (a + 1)
          have hrec := ih (a + 1)
          simp only [retryFrom, h]
          have hm : (retryFrom op d (a + 1) r).2.1 - 1 - a =
              ((retryFrom op d (a + 1) r).2.1 - 1 - (a + 1)) + 1 := by omega
          rw [hrec, hm, List.range_succ_eq_map, List.map_cons, List.map_map]
          refine congrArg₂ List.cons (by rw [Nat.add_zero]) ?_
          exact List.map_congr_left fun i _ =>
            congrArg (fun n => d * 2 ^ n) (by omega)

/-- Retry helper: every attempt that was followed by another one rejected. -/
theorem retryFrom_retried_only_failures (op : Nat → Except CallFailure α)
    (d : Nat) : ∀ (r a k : Nat), a ≤ k → k + 1 < (retryFrom op d a r).2.1 →
      ∃ e, op k = .error e := by
  intro r
  induction r with
  | zero =>
      intro a k hak hk
      simp [retryFrom] at hk
      omega
  | succ r ih =>
      intro a k hak hk
      cases h : op a with
      | ok v => simp [retryFrom, h] at hk; omega
      | error e =>
          simp only [retryFrom, h] at hk
          rcases Nat.eq_or_lt_of_le hak with rfl | hlt
          · exact ⟨e, h⟩
          · exact ih (a + 1) k hlt hk

/-- Helper: `getAddressFromViaCep` forwards the attempt count and delay list
of the retry loop unchanged. -/
theorem getAddressFromViaCep_snd (op : Nat → Except CallFailure ViaCepResponse) :
    (getAddressFromViaCep op).2 = (retryWithBackoff op 3 1000).2 := by
  unfold getAddressFromViaCep
  rcases h : retryWithBackoff op 3 1000 with ⟨res, n, ds⟩
  rcases res with f | data
  · rcases f with s | _
    · by_cases hs : s = 404 <;> simp [h, hs]
    · simp [h]
  · by_cases he : data.erro = true <;> simp [h, he]

/-- Helper: every outcome of `getAddressFromViaCep` is a resolved address,
`CEP_NOT_FOUND`, or `SERVICE_UNAVAILABLE`. -/
theorem getAddressFromViaCep_result_cases
    (op : Nat → Except CallFailure ViaCepResponse) :
    (∃ a, (getAddressFromViaCep op).1 = .ok a) ∨
    (getAddressFromViaCep op).1 = .error .cepNotFound ∨
    (getAddressFromViaCep op).1 = .error .serviceUnavailable := by
  unfold getAddressFromViaCep
  rcases h : retryWithBackoff op 3 1000 with ⟨res, n, ds⟩
  rcases res with f | data
  · rcases f with s | _
    · by_cases hs : s = 404 <;> simp [h, hs]
    · simp [h]
  · by_cases he : data.erro = true <;> simp [h, he]

/-- C8: the address lookup makes at most 4 attempts (1 + 3 retries), the
awaited delays double from the 1000 ms base, a resolved "not found" body is
terminal after a single attempt with no retry, every attempt that got
retried had rejected (transport-level failure), and every failure surfaces
as exactly `CEP_NOT_FOUND` or `SERVICE_UNAVAILABLE`. -/
theorem getAddressFromViaCep_retry_policy
    (op : Nat → Except CallFailure ViaCepResponse) :
    (getAddressFromViaCep op).2.1 ≤ 4 ∧
    (getAddressFromViaCep op).2.2 =
      (List.range ((getAddressFromViaCep op).2.1 - 1)).map
        (fun i => 1000 * 2 ^ i) ∧
    (∀ body : ViaCepResponse, op 0 = .ok body → body.erro = true →
      getAddressFromViaCep op = (.error .cepNotFound, 1, [])) ∧
    ((∃ a, (getAddressFromViaCep op).1 = .ok a) ∨
      (getAddressFromViaCep op).1 = .error .cepNotFound ∨
      (getAddressFromViaCep op).1 = .error .serviceUnavailable) ∧
    (∀ k : Nat, k + 1 < (getAddressFromViaCep op).2.1 →
      ∃ e, op k = .error e) := by
  have hsnd := getAddressFromViaCep_snd op
  refine ⟨?_, ?_, ?_, getAddressFromViaCep_result_cases op, ?_⟩
  · rw [show (getAddressFromViaCep op).2.1 = (retryWithBackoff op 3 1000).2.1 from
      congrArg Prod.fst hsnd]
    exact retryFrom_attempts_upper op 1000 3 0
  · rw [show (getAddressFromViaCep op).2.2 = (retryWithBackoff op 3 1000).2.2 from
      congrArg Prod.snd hsnd,
      show (getAddressFromViaCep op).2.1 = (retryWithBackoff op 3 1000).2.1 from
      congrArg Prod.fst hsnd]
    have := retryFrom_delays op 1000 3 0
    simpa [retryWithBackoff] using this
  · intro body h0 herro
    simp [getAddressFromViaCep, retryWithBackoff, retryFrom, h0, herro]
  · intro k hk
    rw [show (getAddressFromViaCep op).2.1 = (retryWithBackoff op 3 1000).2.1 from
      congrArg Prod.fst hsnd] at hk
    exact retryFrom_retried_only_failures op 1000 3 0 k (Nat.zero_le k) hk

/-- Witness for C8: a provider that resolves `erro: true` on the first
attempt is terminal with one attempt and no delays; the attempt bound holds
there too. -/
theorem getAddressFromViaCep_retry_policy_witness :
    getAddressFromViaCep
        (fun _ => .ok ⟨⟨"01001000", "Praca", "", "Se", "Sao Paulo", "SP",
          "", "", "", ""⟩, true⟩) = (.error .cepNotFound, 1, []) ∧
    (getAddressFromViaCep
        (fun _ => .ok ⟨⟨"01001000", "Praca", "", "Se", "Sao Paulo", "SP",
          "", "", "", ""⟩, true⟩)).2.1 ≤ 4 :=
  ⟨(getAddressFromViaCep_retry_policy _).2.2.1
      ⟨⟨"01001000", "Praca", "", "Se", "Sao Paulo", "SP", "", "", "", ""⟩, true⟩
      rfl rfl,
    (getAddressFromViaCep_retry_policy _).1⟩

/-- Helper: `isValidCep` accepts exactly the inputs whose digit-stripped form
has length 8 and is not one repeated digit. -/
theorem isValidCep_iff (cep : String) :
    isValidCep cep = true ↔
      ((formatCep cep).length = 8 ∧ isRepeatedDigit (formatCep cep) = false) := by
  by_cases hc : cep = ""
  · subst hc; simp [isValidCep, formatCep, stripNonDigits, String.length]
  · simp only [isValidCep, hc, if_false, ite_false, formatCep]
    by_cases hlen : (stripNonDigits cep).length = 8
    · simp only [hlen, ne_eq, not_true_eq_false, if_false, ite_false]
      cases hrep : isRepeatedDigit (stripNonDigits cep) <;> simp [hc, hlen, hrep]
    · simp [hc, hlen]

/-- C9: `geocodeCep` raises one of the two `InvalidInput` errors exactly when
the digit-stripped input is not 8 digits long or is a single repeated digit,
and in that case it performs no cache or provider I/O (empty effect trace,
store untouched). -/
theorem geocodeCep_invalid_input_iff (env : CacheEnv) (nowMs : Int)
    (geoStore : Store GeocodingResult)
    (viaCepOp : Nat → Except CallFailure ViaCepResponse)
    (openCageConfigured : Bool)
    (openCageOutcome : Except CallFailure (List Coordinates)) (r1 r2 : Rat)
    (cep : String) :
    (((geocodeCep env nowMs geoStore viaCepOp openCageConfigured openCageOutcome
          r1 r2 cep).result = .error .cepRequired ∨
      (geocodeCep env nowMs geoStore viaCepOp openCageConfigured openCageOutcome
          r1 r2 cep).result = .error .cepFormatInvalid) ↔
      ((formatCep cep).length ≠ 8 ∨ isRepeatedDigit (formatCep cep) = true)) ∧
    (((geocodeCep env nowMs geoStore viaCepOp openCageConfigured openCageOutcome
          r1 r2 cep).result = .error .cepRequired ∨
      (geocodeCep env nowMs geoStore viaCepOp openCageConfigured openCageOutcome
          r1 r2 cep).result = .error .cepFormatInvalid) →
      (geocodeCep env nowMs geoStore viaCepOp openCageConfigured openCageOutcome
          r1 r2 cep).store = geoStore ∧
      (geocodeCep env nowMs geoStore viaCepOp openCageConfigured openCageOutcome
          r1 r2 cep).trace = []) := by
  by_cases hc : cep = ""
  · subst hc
    exact ⟨⟨fun _ => Or.inl (by decide), fun _ => Or.inl rfl⟩,
      fun _ => ⟨rfl, rfl⟩⟩
  by_cases hv : isValidCep cep = false
  · have hout : geocodeCep env nowMs geoStore viaCepOp openCageConfigured
        openCageOutcome r1 r2 cep = ⟨.error .cepFormatInvalid, geoStore, []⟩ := by
      simp [geocodeCep, hc, hv]
    rw [hout]
    have hshape : (formatCep cep).length ≠ 8 ∨
        isRepeatedDigit (formatCep cep) = true := by
      by_cases hlen : (formatCep cep).length = 8
      · cases hrep : isRepeatedDigit (formatCep cep) with
        | true => exact Or.inr rfl
        | false =>
            exact absurd ((isValidCep_iff cep).mpr ⟨hlen, hrep⟩) (by simp [hv])
      · exact Or.inl hlen
    exact ⟨⟨fun _ => hshape, fun _ => Or.inr rfl⟩, fun _ => ⟨rfl, rfl⟩⟩
  · have hval : isValidCep cep = true := by
      revert hv; cases isValidCep cep <;> simp
    have hshape := (isValidCep_iff cep).mp hval
    have hres : ∀ e : GeoFailure,
        (geocodeCep env nowMs geoStore viaCepOp openCageConfigured
          openCageOutcome r1 r2 cep).result = .error e →
        e = .cepNotFound ∨ e = .serviceUnavailable := by
      intro e he
      simp only [geocodeCep, hc, if_false, ite_false, hval] at he
      rw [if_neg (by simp : ¬(true = false))] at he
      rcases hcg : cacheGet env nowMs geoStore ("geocoding:" ++ formatCep cep)
        with ⟨cached, s1⟩
      rw [hcg] at he
      rcases cached with _ | result
      · rcases hga : getAddressFromViaCep viaCepOp with ⟨ares, an, ads⟩
        rw [hga] at he
        rcases ares with f | addr
        · rcases getAddressFromViaCep_result_cases viaCepOp with ⟨a, ha⟩ | ha | ha <;>
            rw [hga] at ha <;> simp at ha <;> simp [ha] at he <;> simp [he]
        · simp at he
      · simp at he
    refine ⟨⟨fun h => ?_, fun h => ?_⟩, fun h => ?_⟩
    · rcases h with h | h
      · rcases hres _ h with h' | h' <;> cases h'
      · rcases hres _ h with h' | h' <;> cases h'
    · rcases h with h | h
      · exact absurd hshape.1 h
      · rw [hshape.2] at h; cases h
    · rcases h with h | h
      · rcases hres _ h with h' | h' <;> cases h'
      · rcases hres _ h with h' | h' <;> cases h'

/-- Witness for C9: the 3-digit input "123" is rejected as invalid input with
an empty effect trace, while the well-formed "01310-100" is not rejected as
invalid input. -/
theorem geocodeCep_invalid_input_iff_witness :
    ((geocodeCep healthyEnv 0 Store.empty (fun _ => .error .netErr) false
        (.error .netErr) 0 0 "123").result = .error .cepRequired ∨
      (geocodeCep healthyEnv 0 Store.empty (fun _ => .error .netErr) false
        (.error .netErr) 0 0 "123").result = .error .cepFormatInvalid) ∧
    (geocodeCep healthyEnv 0 Store.empty (fun _ => .error .netErr) false
        (.error .netErr) 0 0 "123").trace = [] ∧
    ¬((geocodeCep healthyEnv 0 Store.empty (fun _ => .error .netErr) false
        (.error .netErr) 0 0 "01310-100").result = .error .cepRequired ∨
      (geocodeCep healthyEnv 0 Store.empty (fun _ => .error .netErr) false
        (.error .netErr) 0 0 "01310-100").result = .error .cepFormatInvalid) := by
  have hbad := (geocodeCep_invalid_input_iff healthyEnv 0 Store.empty
    (fun _ => .error .netErr) false (.error .netErr) 0 0 "123").1.mpr
    (Or.inl (by decide))
  refine ⟨hbad, ((geocodeCep_invalid_input_iff healthyEnv 0 Store.empty
    (fun _ => .error .netErr) false (.error .netErr) 0 0 "123").2 hbad).2,
    fun h => ?_⟩
  have := (geocodeCep_invalid_input_iff healthyEnv 0 Store.empty
    (fun _ => .error .netErr) false (.error .netErr) 0 0 "01310-100").1.mp h
  revert this
  decide

/-- Helper: every capital coordinate in the region table lies on the 1e-6
grid (its product with 1000000 is an integer). -/
theorem stateCoordinates_grid (uf : String) (sc : Coordinates)
    (h : stateCoordinates uf = some sc) :
    (sc.latitude * 1000000).den = 1 ∧ (sc.longitude * 1000000).den = 1 := by
  unfold stateCoordinates at h
  split at h <;>
    first
      | exact Option.noConfusion h
      | (injection h with h; subst h; constructor <;> norm_num)

/-- Helper: rounding `base + v` to 6 decimals moves it at most 1/20 away from
an on-grid `base` when `-1/20 ≤ v < 1/20`. -/
theorem round6_shift (base v : Rat) (hden : (base * 1000000).den = 1)
    (hlo : -(1/20) ≤ v) (hhi : v < 1/20) :
    |round6 (base + v) - base| ≤ 1/20 := by
  have hbase : ((base * 1000000).num : Rat) = base * 1000000 :=
    (Rat.den_eq_one_iff _).mp hden
  set z : Int := (base * 1000000).num with hz
  have hexpand : (base + v) * 1000000 = (z : Rat) + v * 1000000 := by
    rw [hbase]; ring
  have hround : round ((base + v) * 1000000) = z + round (v * 1000000) := by
    rw [hexpand, round_int_add]
  have hbase' : base = (z : Rat) / 1000000 := by
    field_simp [hbase]
  have hdiff : round6 (base + v) - base = (round (v * 1000000) : Rat) / 1000000 := by
    rw [round6, hround, hbase']
    push_cast
    ring
  rw [hdiff]
  have hup : round (v * 1000000) ≤ 50000 := by
    rw [round_eq]
    have h1 : v * 1000000 + 1/2 < (50001 : Rat) := by nlinarith
    have h2 : ⌊v * 1000000 + 1/2⌋ < (50001 : Int) :=
      Int.floor_lt.mpr (by exact_mod_cast h1)
    omega
  have hdown : -50000 ≤ round (v * 1000000) := by
    rw [round_eq]
    exact Int.le_floor.mpr (by push_cast; nlinarith)
  rw [abs_div, abs_of_nonneg (by norm_num : (0:Rat) ≤ 1000000)]
  rw [div_le_iff₀ (by norm_num : (0:Rat) < 1000000)]
  calc |(round (v * 1000000) : Rat)| = ((|round (v * 1000000)| : Int) : Rat) := by
        push_cast; rfl
    _ ≤ ((50000 : Int) : Rat) := by
        exact_mod_cast abs_le.mpr ⟨hdown, hup⟩
    _ ≤ 1/20 * 1000000 := by norm_num

/-- Counterexample for C7 as stated: with the primary geocoder configured and
succeeding, the provider's raw coordinates are returned unchanged — a
latitude with 7 decimal places is not rounded to 6. -/
theorem getCoordinatesFromAddress_no_provider_rounding :
    getCoordinatesFromAddress true (.ok [⟨1234567/10000000, 0⟩]) 0 0
        ⟨"01001000", "Praca", "", "Se", "Sao Paulo", "SP", "", "", "", ""⟩ =
      ⟨1234567/10000000, 0⟩ ∧
    round6 (1234567/10000000) ≠ 1234567/10000000 := by
  refine ⟨rfl, ?_⟩
  have : round ((1234567 : Rat)/10000000 * 1000000) = 123457 := by
    rw [round_eq]
    norm_num
  simp only [round6, this]
  norm_num

/-- C7 (amended): the coordinate resolver always returns coordinates: when
the primary geocoder is configured and yields a result, the provider's raw
coordinates are returned (no 6-decimal rounding on this path — rounding
applies only to the fallback); on primary failure or absence the regional
capital's coordinates are returned jittered by at most 0.05 degrees per axis
(rounded to 6 decimals); for an unknown region code the fixed country
centroid is returned. -/
theorem getCoordinatesFromAddress_resolution
    (ocOutcome : Except CallFailure (List Coordinates)) (r1 r2 : Rat)
    (address : Address)
    (hr1lo : 0 ≤ r1) (hr1hi : r1 < 1) (hr2lo : 0 ≤ r2) (hr2hi : r2 < 1) :
    (∀ (first : Coordinates) (rest : List Coordinates),
      ocOutcome = .ok (first :: rest) →
      getCoordinatesFromAddress true ocOutcome r1 r2 address =
        ⟨first.latitude, first.longitude⟩) ∧
    (∀ (configured : Bool) (sc : Coordinates),
      stateCoordinates address.uf = some sc →
      (configured = false ∨ ocOutcome = .ok [] ∨ ∃ f, ocOutcome = .error f) →
      |(getCoordinatesFromAddress configured ocOutcome r1 r2 address).latitude -
          sc.latitude| ≤ 1/20 ∧
      |(getCoordinatesFromAddress configured ocOutcome r1 r2 address).longitude -
          sc.longitude| ≤ 1/20) ∧
    (∀ configured : Bool, stateCoordinates address.uf = none →
      (configured = false ∨ ocOutcome = .ok [] ∨ ∃ f, ocOutcome = .error f) →
      getCoordinatesFromAddress configured ocOutcome r1 r2 address =
        ⟨-142350/10000, -519253/10000⟩) := by
  have hfallback : ∀ configured : Bool,
      (configured = false ∨ ocOutcome = .ok [] ∨ ∃ f, ocOutcome = .error f) →
      getCoordinatesFromAddress configured ocOutcome r1 r2 address =
        estimateCoordinatesFromBrazilianAddress r1 r2 address := by
    rintro configured (rfl | rfl | ⟨f, rfl⟩)
    · rfl
    · simp [getCoordinatesFromAddress, getCoordinatesFromOpenCage]
    · simp [getCoordinatesFromAddress, getCoordinatesFromOpenCage]
  refine ⟨?_, ?_, ?_⟩
  · rintro first rest rfl
    rfl
  · intro configured sc hsc hcond
    rw [hfallback configured hcond]
    have hgrid := stateCoordinates_grid address.uf sc hsc
    have hest : estimateCoordinatesFromBrazilianAddress r1 r2 address =
        ⟨round6 (sc.latitude + (r1 - 1/2) * (1/10)),
          round6 (sc.longitude + (r2 - 1/2) * (1/10))⟩ := by
      simp [estimateCoordinatesFromBrazilianAddress, hsc]
    rw [hest]
    constructor
    · exact round6_shift sc.latitude ((r1 - 1/2) * (1/10)) hgrid.1
        (by nlinarith) (by nlinarith)
    · exact round6_shift sc.longitude ((r2 - 1/2) * (1/10)) hgrid.2
        (by nlinarith) (by nlinarith)
  · intro configured hnone hcond
    rw [hfallback configured hcond]
    simp [estimateCoordinatesFromBrazilianAddress, hnone]

/-- Witness for C7: raw provider passthrough at (0.5, 0.5); the no-provider
fallback for an SP address stays within 0.05 of the SP capital entry; an
unknown region code XX yields the country centroid. -/
theorem getCoordinatesFromAddress_resolution_witness :
    getCoordinatesFromAddress true (.ok [⟨1/2, 1/2⟩]) 0 (1/2)
        ⟨"01001000", "Praca", "", "Se", "Sao Paulo", "SP", "", "", "", ""⟩ =
      ⟨1/2, 1/2⟩ ∧
    |(getCoordinatesFromAddress false (.ok [⟨1/2, 1/2⟩]) 0 (1/2)
        ⟨"01001000", "Praca", "", "Se", "Sao Paulo", "SP", "", "", "", ""⟩).latitude -
      (-235505/10000)| ≤ 1/20 ∧
    getCoordinatesFromAddress false (.error .netErr) 0 (1/2)
        ⟨"01001000", "Praca", "", "Se", "Sao Paulo", "XX", "", "", "", ""⟩ =
      ⟨-142350/10000, -519253/10000⟩ := by
  refine ⟨(getCoordinatesFromAddress_resolution (.ok [⟨1/2, 1/2⟩]) 0 (1/2)
      ⟨"01001000", "Praca", "", "Se", "Sao Paulo", "SP", "", "", "", ""⟩
      (by norm_num) (by norm_num) (by norm_num) (by norm_num)).1 ⟨1/2, 1/2⟩ []
      rfl, ?_, ?_⟩
  · exact ((getCoordinatesFromAddress_resolution (.ok [⟨1/2, 1/2⟩]) 0 (1/2)
      ⟨"01001000", "Praca", "", "Se", "Sao Paulo", "SP", "", "", "", ""⟩
      (by norm_num) (by norm_num) (by norm_num) (by norm_num)).2.1 false
      ⟨-235505/10000, -466333/10000⟩ rfl (Or.inl rfl)).1
  · exact (getCoordinatesFromAddress_resolution (.error .netErr) 0 (1/2)
      ⟨"01001000", "Praca", "", "Se", "Sao Paulo", "XX", "", "", "", ""⟩
      (by norm_num) (by norm_num) (by norm_num) (by norm_num)).2.2 false rfl
      (Or.inl rfl)

/-- Cache helper: a healthy read of a fresh entry returns its value. -/
theorem cacheGet_healthy_fresh {α : Type} (now : Int) (store : Store α)
    (key : String) (e : CacheEntry α) (hsome : store key = some e)
    (hfresh : ¬now > e.timestamp + (e.ttl : Int) * 1000) :
    cacheGet healthyEnv now store key = (some e.data, store) := by
  simp [cacheGet, healthyEnv, hsome, hfresh]

/-- Cache helper: a healthy read of an absent key misses. -/
theorem cacheGet_healthy_miss {α : Type} (now : Int) (store : Store α)
    (key : String) (hnone : store key = none) :
    cacheGet healthyEnv now store key = (none, store) := by
  simp [cacheGet, healthyEnv, hnone]

/-- Cache helper: a healthy write stores the envelope. -/
theorem cacheSet_healthy {α : Type} (now : Int) (store : Store α)
    (key : String) (v : α) (ttlSeconds : Option Nat) :
    cacheSet healthyEnv now store key v ttlSeconds =
      store.update key ⟨v, now, ttlOrDefault ttlSeconds 86400⟩ := by
  simp [cacheSet, healthyEnv]

/-- Pipeline helper: validating the fixture secret against a fresh active
record updates `lastUsedAt` and persists it. -/
theorem validateApiKey_healthy_active (st : AuthState) (K : ApiKey)
    (hK : st.apiKeys (apiKeyCacheKey "eon_k") = some ⟨K, 0, 86400⟩)
    (hstatus : K.status = .active) (hexp : K.expiresAt = none) :
    validateApiKey healthyEnv "eon_k" 0 st =
      (some { K with lastUsedAt := some 0 },
        { st with apiKeys := (st.apiKeys.update (apiKeyCacheKey "eon_k")
            ⟨{ K with lastUsedAt := some 0 }, 0, 86400⟩) }) := by
  have hcond : ¬("eon_k" = "" ∨ "eon_".data.isPrefixOf "eon_k".data = false) := by
    decide
  simp only [validateApiKey, if_neg hcond]
  rw [cacheGet_healthy_fresh 0 st.apiKeys (apiKeyCacheKey "eon_k") _ hK
    (by norm_num)]
  simp only [hstatus, hexp, ne_eq, not_true_eq_false, if_false, ite_false]
  rw [cacheSet_healthy]
  simp [ttlOrDefault]

/-- Pipeline helper: an under-limit quota check is allowed and leaves the
state unchanged. -/
theorem checkRateLimit_healthy_of_read (apiKey : ApiKey) (now tz : Int)
    (st : AuthState) (got : Option Usage)
    (hread : cacheGet healthyEnv now st.usages (usageCacheKey apiKey.id now) =
      (got, st.usages))
    (hlt : (got.getD ⟨0, 0, 0, now⟩).requestsToday <
      apiKey.rateLimit.requestsPerDay) :
    checkRateLimit healthyEnv apiKey now tz false st =
      (⟨true, apiKey.rateLimit.requestsPerDay -
          (got.getD ⟨0, 0, 0, now⟩).requestsToday,
        now + 24 * 60 * 60 * 1000⟩, st) := by
  simp [checkRateLimit, hread, Nat.not_le.mpr hlt]

/-- Pipeline helper: recording usage bumps the three counters of the current
read and writes both stores. -/
theorem recordUsage_healthy_of_read (apiKey : ApiKey) (now : Int)
    (st : AuthState) (got : Option Usage)
    (hread : cacheGet healthyEnv now st.usages (usageCacheKey apiKey.id now) =
      (got, st.usages)) :
    recordUsage healthyEnv apiKey now st =
      ⟨st.apiKeys.update (apiKeyCacheKey apiKey.key)
          ⟨{ apiKey with usage :=
              ⟨(got.getD ⟨0, 0, 0, now⟩).totalRequests + 1,
                (got.getD ⟨0, 0, 0, now⟩).requestsToday + 1,
                (got.getD ⟨0, 0, 0, now⟩).requestsThisMonth + 1,
                (got.getD ⟨0, 0, 0, now⟩).lastResetDate⟩ }, now, 86400⟩,
        st.usages.update (usageCacheKey apiKey.id now)
          ⟨⟨(got.getD ⟨0, 0, 0, now⟩).totalRequests + 1,
            (got.getD ⟨0, 0, 0, now⟩).requestsToday + 1,
            (got.getD ⟨0, 0, 0, now⟩).requestsThisMonth + 1,
            (got.getD ⟨0, 0, 0, now⟩).lastResetDate⟩, now, 86400⟩⟩ := by
  simp only [recordUsage, hread]
  rw [cacheSet_healthy, cacheSet_healthy]
  have h1 : ttlOrDefault (some (24 * 60 * 60)) 86400 = 86400 := rfl
  have h2 : ttlOrDefault (some 0) 86400 = 86400 := rfl
  rw [h1, h2]

/-- Pipeline helper: one full successful request under the invariant returns
status 200 and raises the day's counter by exactly 2 (once in `authenticate`,
once in the `finish` hook). -/
theorem pipeline_step (st : AuthState) (c : Nat) (hinv : PipelineInv st c)
    (hc : c + 1 < 10000) :
    (protectedRequest healthyEnv "eon_k" .geocodingRead 200 0 0 st).1 = 200 ∧
    PipelineInv
      (protectedRequest healthyEnv "eon_k" .geocodingRead 200 0 0 st).2
      (c + 2) := by
  obtain ⟨⟨K, hK, hid, hkey, hstatus, hexp, hperm, hrl⟩, husage⟩ := hinv
  have hrlD : K.rateLimit.requestsPerDay = 10000 := by rw [hrl]; rfl
  have hget0 : ∃ got : Option Usage,
      cacheGet healthyEnv 0 st.usages (usageCacheKey K.id 0) =
        (got, st.usages) ∧
      (got.getD ⟨0, 0, 0, 0⟩).requestsToday = c := by
    rw [hid]
    rcases husage with ⟨hn, rfl⟩ | ⟨u, hu, hcnt⟩
    · exact ⟨none, cacheGet_healthy_miss 0 st.usages _ hn, rfl⟩
    · exact ⟨some u, cacheGet_healthy_fresh 0 st.usages _ ⟨u, 0, 86400⟩ hu
        (by norm_num), hcnt⟩
  obtain ⟨got, hread, hcount⟩ := hget0
  set K' : ApiKey := { K with lastUsedAt := some 0 } with hK'
  set stV : AuthState := { st with apiKeys := (st.apiKeys.update
    (apiKeyCacheKey "eon_k") ⟨K', 0, 86400⟩) } with hstV
  have hkey' : K'.key = "eon_k" := hkey
  have hid' : K'.id = "id1" := hid
  have hreadV : cacheGet healthyEnv 0 stV.usages (usageCacheKey K'.id 0) =
      (got, stV.usages) := hread
  have hltV : (got.getD ⟨0, 0, 0, 0⟩).requestsToday <
      K'.rateLimit.requestsPerDay := by
    show (got.getD ⟨0, 0, 0, 0⟩).requestsToday < K.rateLimit.requestsPerDay
    omega
  set u1 : Usage := ⟨(got.getD ⟨0, 0, 0, 0⟩).totalRequests + 1,
    (got.getD ⟨0, 0, 0, 0⟩).requestsToday + 1,
    (got.getD ⟨0, 0, 0, 0⟩).requestsThisMonth + 1,
    (got.getD ⟨0, 0, 0, 0⟩).lastResetDate⟩ with hu1
  set st3 : AuthState := ⟨stV.apiKeys.update (apiKeyCacheKey K'.key)
      ⟨{ K' with usage := u1 }, 0, 86400⟩,
    stV.usages.update (usageCacheKey K'.id 0) ⟨u1, 0, 86400⟩⟩ with hst3
  have hauth : authenticate healthyEnv "eon_k" 0 0 st = .ok (K', st3) := by
    simp only [authenticate]
    rw [validateApiKey_healthy_active st K hK hstatus hexp]
    dsimp only
    rw [checkRateLimit_healthy_of_read K' 0 0 stV got hreadV hltV]
    simp only [Bool.true_eq_false, if_false, ite_false]
    rw [recordUsage_healthy_of_read K' 0 stV got hreadV]
  have hpermTrue : hasPermission K' .geocodingRead = true := by
    rw [hK']
    simp [hasPermission, hperm]
  have hread3 : cacheGet healthyEnv 0 st3.usages (usageCacheKey K'.id 0) =
      (some u1, st3.usages) :=
    cacheGet_healthy_fresh 0 st3.usages (usageCacheKey K'.id 0) ⟨u1, 0, 86400⟩
      (Store.update_self _ _ _) (by norm_num)
  have hltV1 : ((some u1).getD ⟨0, 0, 0, 0⟩).requestsToday <
      K'.rateLimit.requestsPerDay := by
    show (got.getD ⟨0, 0, 0, 0⟩).requestsToday + 1 < K.rateLimit.requestsPerDay
    omega
  have hstage2 : checkApiKeyRateLimit healthyEnv K' 0 0 st3 = .ok st3 := by
    simp only [checkApiKeyRateLimit]
    rw [checkRateLimit_healthy_of_read K' 0 0 st3 (some u1) hread3 hltV1]
    simp only [Bool.true_eq_false, if_false, ite_false]
  set u2 : Usage := ⟨((some u1).getD ⟨0, 0, 0, 0⟩).totalRequests + 1,
    ((some u1).getD ⟨0, 0, 0, 0⟩).requestsToday + 1,
    ((some u1).getD ⟨0, 0, 0, 0⟩).requestsThisMonth + 1,
    ((some u1).getD ⟨0, 0, 0, 0⟩).lastResetDate⟩ with hu2
  have hfin : recordApiKeyUsageOnFinish healthyEnv K' 0 200 st3 =
      ⟨st3.apiKeys.update (apiKeyCacheKey K'.key)
          ⟨{ K' with usage := u2 }, 0, 86400⟩,
        st3.usages.update (usageCacheKey K'.id 0) ⟨u2, 0, 86400⟩⟩ := by
    simp only [recordApiKeyUsageOnFinish,
      if_pos (show (200 : Nat) < 500 by norm_num)]
    rw [recordUsage_healthy_of_read K' 0 st3 (some u1) hread3]
  have hrun : protectedRequest healthyEnv "eon_k" .geocodingRead 200 0 0 st =
      (200, ⟨st3.apiKeys.update (apiKeyCacheKey K'.key)
          ⟨{ K' with usage := u2 }, 0, 86400⟩,
        st3.usages.update (usageCacheKey K'.id 0) ⟨u2, 0, 86400⟩⟩) := by
    simp only [protectedRequest]
    rw [hauth]
    dsimp only
    rw [hpermTrue]
    simp only [Bool.true_eq_false, if_false, ite_false]
    rw [hstage2]
    dsimp only
    rw [hfin]
  rw [hrun]
  refine ⟨rfl, ⟨{ K' with usage := u2 }, ?_, hid', hkey',
    hstatus, hexp, hperm, hrl⟩, Or.inr ⟨u2, ?_, ?_⟩⟩
  · rw [show apiKeyCacheKey "eon_k" = apiKeyCacheKey K'.key by rw [hkey']]
    exact Store.update_self _ _ _
  · rw [show usageCacheKey "id1" 0 = usageCacheKey K'.id 0 by rw [hid']]
    exact Store.update_self _ _ _
  · show (got.getD ⟨0, 0, 0, 0⟩).requestsToday + 1 + 1 = c + 2
    omega

/-- Pipeline helper: the freshly created fixture key satisfies the invariant
with a zero counter. -/
theorem pipelineInv_init : PipelineInv fixtureState 0 :=
  ⟨⟨createApiKeyRecord basicRequest "id1" "eon_k" 0, rfl, rfl, rfl, rfl, rfl,
    rfl, rfl⟩, Or.inl ⟨rfl, rfl⟩⟩

/-- Pipeline helper: the day's counter under the invariant. -/
theorem requestsTodayIn_of_inv (st : AuthState) (c : Nat)
    (hinv : PipelineInv st c) : requestsTodayIn st "id1" 0 = c := by
  obtain ⟨_, ⟨hn, rfl⟩ | ⟨u, hu, hcnt⟩⟩ := hinv
  · simp [requestsTodayIn, hn]
  · simp [requestsTodayIn, hu, hcnt]

/-- Pipeline helper: invariant and statuses along the fixture sequence. -/
theorem pipelineState_inv (N : Nat) (hN : N ≤ 5000) :
    PipelineInv (pipelineState N) (2 * N) ∧
    (∀ k : Nat, k < N → pipelineStatus k = 200) := by
  induction N with
  | zero => exact ⟨pipelineInv_init, fun k hk => absurd hk (by omega)⟩
  | succ n ih =>
      have hn5 : n ≤ 5000 := by omega
      obtain ⟨hInv, hStat⟩ := ih hn5
      have hstep := pipeline_step (pipelineState n) (2 * n) hInv (by omega)
      refine ⟨?_, ?_⟩
      · have h2 : 2 * n + 2 = 2 * (n + 1) := by ring
        have := hstep.2
        rw [h2] at this
        exact this
      · intro k hk
        rcases Nat.lt_succ_iff_lt_or_eq.mp hk with hk' | rfl
        · exact hStat k hk'
        · exact hstep.1

/-- C3 (amended): on the protected routes, every authenticated request that
passes the permission and per-key rate checks (reaching the usage-recording
middleware) and finishes with a status below 500 increments the usage
counters twice — once inside `authenticate` before the handler, once in the
`finish` hook — so N successful requests raise requestsToday by 2N and the
effective daily allowance is about half of rateLimit.perDay.  (A request the
permission check denies with 403 — also below 500 — increments only once,
because the finish-hook middleware never ran.) -/
theorem protectedRoute_usage_double_count (N : Nat) (hN : N ≤ 5000) :
    requestsTodayIn (pipelineState N) "id1" 0 = 2 * N ∧
    (∀ k : Nat, k < N → pipelineStatus k = 200) := by
  obtain ⟨hInv, hStat⟩ := pipelineState_inv N hN
  exact ⟨requestsTodayIn_of_inv _ _ hInv, hStat⟩

/-- Witness for C3: three successful requests drive the day's counter to 6,
each with status 200. -/
theorem protectedRoute_usage_double_count_witness :
    requestsTodayIn (pipelineState 3) "id1" 0 = 2 * 3 ∧
    pipelineStatus 0 = 200 ∧ pipelineStatus 2 = 200 :=
  ⟨(protectedRoute_usage_double_count 3 (by norm_num)).1,
    (protectedRoute_usage_double_count 3 (by norm_num)).2 0 (by norm_num),
    (protectedRoute_usage_double_count 3 (by norm_num)).2 2 (by norm_num)⟩

/-- Counterexample for C3 as stated: an authenticated request that the
permission check denies finishes with status 403 (below 500) yet increments
requestsToday exactly once, not twice — `authenticate` recorded usage, but
the chain stopped before the usage-recording middleware installed its
`finish` listener. -/
theorem protectedRoute_403_single_increment :
    (protectedRequest healthyEnv "eon_k" .adminWrite 200 0 0 fixtureState).1 =
      403 ∧
    (403 : Nat) < 500 ∧
    requestsTodayIn
      (protectedRequest healthyEnv "eon_k" .adminWrite 200 0 0 fixtureState).2
      "id1" 0 = 1 ∧
    (1 : Nat) ≠ 2 := by
  exact ⟨rfl, by norm_num, rfl, by norm_num⟩

/-- Distance helper: the haversine distance from a point to itself is 0. -/
theorem calculateDistance_self (a : CoordinatesR) :
    calculateDistance a a = 0 := by
  simp [calculateDistance, toRadians, atan2, roundTo2]

/-- Distance helper: the haversine distance is symmetric. -/
theorem calculateDistance_comm (a b : CoordinatesR) :
    calculateDistance a b = calculateDistance b a := by
  have h1 : toRadians (a.latitude - b.latitude) =
      -toRadians (b.latitude - a.latitude) := by
    unfold toRadians; ring
  have h2 : toRadians (a.longitude - b.longitude) =
      -toRadians (b.longitude - a.longitude) := by
    unfold toRadians; ring
  simp only [calculateDistance]
  have hA : Real.sin (toRadians (a.latitude - b.latitude) / 2) *
        Real.sin (toRadians (a.latitude - b.latitude) / 2) +
      Real.cos (toRadians b.latitude) * Real.cos (toRadians a.latitude) *
        (Real.sin (toRadians (a.longitude - b.longitude) / 2) *
          Real.sin (toRadians (a.longitude - b.longitude) / 2)) =
      Real.sin (toRadians (b.latitude - a.latitude) / 2) *
        Real.sin (toRadians (b.latitude - a.latitude) / 2) +
      Real.cos (toRadians a.latitude) * Real.cos (toRadians b.latitude) *
        (Real.sin (toRadians (b.longitude - a.longitude) / 2) *
          Real.sin (toRadians (b.longitude - a.longitude) / 2)) := by
    rw [h1, h2, neg_div, neg_div, Real.sin_neg, Real.sin_neg]
    ring
  rw [hA]

/-- Distance helper: the antimeridian pair (0,-179), (0,179) evaluates to
exactly 222.39 km. -/
theorem calculateDistance_antimeridian :
    calculateDistance ⟨0, -179⟩ ⟨0, 179⟩ = 22239 / 100 := by
  have hpos : (0 : Real) < Real.pi / 180 := by positivity
  have hlt : Real.pi / 180 < Real.pi / 2 := by
    have := Real.pi_pos
    nlinarith
  have hs : (0 : Real) ≤ Real.sin (Real.pi / 180) :=
    le_of_lt (Real.sin_pos_of_pos_of_lt_pi hpos (by nlinarith [Real.pi_pos]))
  have hc : (0 : Real) < Real.cos (Real.pi / 180) :=
    Real.cos_pos_of_mem_Ioo ⟨by nlinarith [Real.pi_pos], hlt⟩
  simp only [calculateDistance]
  norm_num [toRadians, Real.sin_zero, Real.cos_zero]
  rw [show (358 : Real) * (Real.pi / 180) / 2 = Real.pi - Real.pi / 180 by ring]
  rw [Real.sin_pi_sub]
  rw [Real.sqrt_mul_self hs]
  rw [show (1 : Real) - Real.sin (Real.pi / 180) * Real.sin (Real.pi / 180) =
      Real.cos (Real.pi / 180) * Real.cos (Real.pi / 180) by
    have := Real.sin_sq_add_cos_sq (Real.pi / 180)
    nlinarith]
  rw [Real.sqrt_mul_self (le_of_lt hc)]
  rw [show atan2 (Real.sin (Real.pi / 180)) (Real.cos (Real.pi / 180)) =
      Real.pi / 180 by
    rw [atan2, if_pos hc, ← Real.tan_eq_sin_div_cos]
    exact Real.arctan_tan (by nlinarith [Real.pi_pos]) hlt]
  rw [roundTo2]
  rw [show (6371 : Real) * (2 * (Real.pi / 180)) * 100 = 63710 / 9 * Real.pi
    by ring]
  rw [show round ((63710 : Real) / 9 * Real.pi) = (22239 : Int) by
    rw [round_eq]
    apply Int.floor_eq_iff.mpr
    constructor
    · push_cast
      nlinarith [Real.pi_gt_d6]
    · push_cast
      nlinarith [Real.pi_lt_d6]]
  norm_num

/-- C10: for valid coordinates the haversine distance with Earth radius 6371
and 2-decimal rounding satisfies distance(a,a) = 0 and symmetry, and the
antimeridian-straddling pair (0,-179), (0,179) yields exactly 222.39 km — a
small positive value, far from the near-circumference ~20015 km a naive
longitude difference would give. -/
theorem calculateDistance_haversine_properties :
    (∀ a : CoordinatesR, areValidCoordinates a → calculateDistance a a = 0) ∧
    (∀ a b : CoordinatesR, areValidCoordinates a → areValidCoordinates b →
      calculateDistance a b = calculateDistance b a) ∧
    calculateDistance ⟨0, -179⟩ ⟨0, 179⟩ = 22239 / 100 ∧
    (0 : Real) < 22239 / 100 ∧ (22239 / 100 : Real) < 20015 :=
  ⟨fun a _ => calculateDistance_self a,
    fun a b _ _ => calculateDistance_comm a b,
    calculateDistance_antimeridian, by norm_num, by norm_num⟩

/-- Witness for C10 at the origin and the antimeridian pair. -/
theorem calculateDistance_haversine_properties_witness :
    areValidCoordinates ⟨0, 0⟩ ∧ calculateDistance ⟨0, 0⟩ ⟨0, 0⟩ = 0 ∧
    areValidCoordinates ⟨0, -179⟩ ∧ areValidCoordinates ⟨0, 179⟩ ∧
    calculateDistance ⟨0, -179⟩ ⟨0, 179⟩ = calculateDistance ⟨0, 179⟩ ⟨0, -179⟩ := by
  have hv0 : areValidCoordinates ⟨0, 0⟩ := by
    constructor <;> norm_num
  have hv1 : areValidCoordinates ⟨0, -179⟩ := by
    constructor <;> norm_num
  have hv2 : areValidCoordinates ⟨0, 179⟩ := by
    constructor <;> norm_num
  exact ⟨hv0, calculateDistance_haversine_properties.1 ⟨0, 0⟩ hv0, hv1, hv2,
    calculateDistance_haversine_properties.2.1 ⟨0, -179⟩ ⟨0, 179⟩ hv1 hv2⟩

end EonGeo
